import Mathlib

/-!
Formal model of the wheel-of-names spinner implemented in src/script.js.

The script keeps three mutable globals (names, rotation, spinning) plus the
enabled state of the two buttons and the text of the result display.  We model
that mutable state as the structure WheelState, the per-spin record built by
the spin function as SpinSession, and the event-driven execution (button
clicks, animation frames) as a step relation on a system state that also
carries the session of the animation loop currently in flight.

Angles and rotations are JavaScript numbers; we embed them as exact rationals.
The JavaScript remainder operator and the string helpers used by the script
are modelled explicitly below.
-/

namespace Wheel

/-- JavaScript remainder a % b: the quotient is truncated toward zero, so the
result carries the sign of the dividend. -/
def jsMod (a b : ℚ) : ℚ :=
  if 0 ≤ a / b then a - b * ⌊a / b⌋ else a - b * ⌈a / b⌉

/-- JS String.prototype.trim, modelled on the character list of the string:
drop whitespace from the front and from the back. -/
def jsTrim (s : String) : String :=
  ⟨((s.data.dropWhile Char.isWhitespace).reverse.dropWhile Char.isWhitespace).reverse⟩

/-- Helper for jsSplitComma: accumulate the current chunk (reversed) while
scanning the character list. -/
def splitCommaAux : List Char → List Char → List (List Char)
  | [], acc => [acc.reverse]
  | c :: rest, acc =>
      if c = ',' then acc.reverse :: splitCommaAux rest []
      else splitCommaAux rest (c :: acc)

/-- JS String.prototype.split with separator a comma, as used by the update
handler: raw.split(',') (script.js line 220). -/
def jsSplitComma (s : String) : List String :=
  (splitCommaAux s.data []).map (fun l => ⟨l⟩)

/-- Default list of names (script.js line 6). -/
def defaultNames : List String :=
  ["Alice", "Bob", "Charlie", "Diana", "Eve", "Frank", "Grace", "Heidi"]

/-- The mutable globals of the script together with the UI state it toggles:
names, rotation and spinning (script.js lines 17-19), the disabled state of
the two buttons, and the text of the result display. -/
structure WheelState where
  names : List String
  rotation : ℚ
  spinning : Bool
  spinBtnDisabled : Bool
  updateBtnDisabled : Bool
  resultText : String
deriving DecidableEq

/-- State at page load: names is a copy of defaultNames, rotation is 0 and no
spin is running (script.js lines 17-19); the buttons start enabled.  The
initial text of the result display comes from the page markup, which is not
part of src; its value is irrelevant to every property proved here. -/
def initialWheel : WheelState :=
  { names := defaultNames
  , rotation := 0
  , spinning := false
  , spinBtnDisabled := false
  , updateBtnDisabled := false
  , resultText := "" }

/-- easeOutCubic (script.js lines 125-128). -/
def easeOutCubic (t : ℚ) : ℚ := 1 - (1 - t) ^ 3

/-- Angle per slice in degrees: 360 / segCount (script.js line 149). -/
def anglePer (segCount : ℕ) : ℚ := 360 / segCount

/-- Mid-angle of the chosen slice, shifted by -90 degrees
(script.js line 152). -/
def targetMidAngle (segCount targetIndex : ℕ) : ℚ :=
  targetIndex * anglePer segCount + anglePer segCount / 2 - 90

/-- Total rotation added by one spin: fullRot * 360 + targetMidAngle
(script.js line 155). -/
def finalRotation (segCount targetIndex fullRot : ℕ) : ℚ :=
  fullRot * 360 + targetMidAngle segCount targetIndex

/-- The per-spin record built by the spin function (script.js lines 146-159).
The random duration and the start timestamp only fix the real-time pacing of
the animation; frames below are indexed directly by the normalized time
t = min 1 (elapsed / duration), so they are not carried in the record. -/
structure SpinSession where
  targetIndex : ℕ
  fullRot : ℕ
  startRotation : ℚ
  endRotation : ℚ
deriving DecidableEq

/-- The spin function (script.js lines 135-175), up to the point where the
animation loop is scheduled.  The two Math.random draws are parameters:
targetIndex (line 147) and fullRot (line 148).  Returns the updated globals
and the session captured by the animate closure, or none if the request is
rejected by the guard on line 136. -/
def spin (s : WheelState) (targetIndex fullRot : ℕ) : WheelState × Option SpinSession :=
  if s.spinning || s.names.length == 0 then (s, none)
  else
    ({ s with
        spinning := true
      , spinBtnDisabled := true
      , updateBtnDisabled := true
      , resultText := "Spinning..." },
     some
      { targetIndex := targetIndex
      , fullRot := fullRot
      , startRotation := jsMod s.rotation 360
      , endRotation := s.rotation + finalRotation s.names.length targetIndex fullRot })

/-- Rotation assigned by the animate closure for a given eased progress value:
startRotation + (endRotation - startRotation) * eased (script.js line 166). -/
def rotationAt (sess : SpinSession) (eased : ℚ) : ℚ :=
  sess.startRotation + (sess.endRotation - sess.startRotation) * eased

/-- One animation frame (script.js lines 162-169): tq is elapsed / duration,
the code clamps it to t = min 1 tq, eases it and writes the rotation global. -/
def animateFrame (sess : SpinSession) (tq : ℚ) (s : WheelState) : WheelState :=
  { s with rotation := rotationAt sess (easeOutCubic (min 1 tq)) }

/-- Winner index computed by finishSpin (script.js lines 191-200) from the
current rotation: Math.floor(((360 + 270 - rotation % 360) % 360) / (360 / segCount)). -/
def resolveIndex (segCount : ℕ) (rotation : ℚ) : ℤ :=
  ⌊ jsMod (360 + 270 - jsMod rotation 360) 360 / (360 / (segCount : ℚ)) ⌋

/-- The expression names[index] || '—' (script.js line 201): an out-of-range
index gives undefined, and undefined as well as an empty string are falsy, so
both fall back to the em dash. -/
def winnerName (names : List String) (index : ℤ) : String :=
  if h : 0 ≤ index ∧ index.toNat < names.length then
    if names.get ⟨index.toNat, h.2⟩ = "" then "—" else names.get ⟨index.toNat, h.2⟩
  else "—"

/-- The finishSpin function (script.js lines 182-208).  Its winIndex parameter
is bound on line 182 and never read in the body. -/
def finishSpin (winIndex : ℕ) (s : WheelState) : WheelState :=
  { s with
      spinning := false
    , spinBtnDisabled := false
    , updateBtnDisabled := false
    , resultText := "Winner: " ++ winnerName s.names (resolveIndex s.names.length s.rotation) }

/-- Parse of the trimmed input (script.js line 220):
raw.split(',').map(s => s.trim()).filter(Boolean).  Array.filter(Boolean) on
strings drops exactly the empty strings. -/
def parseNames (raw : String) : List String :=
  ((jsSplitComma raw).map jsTrim).filter (fun s => s != "")

/-- The update-button click handler (script.js lines 216-226): trim the input,
return early when it is empty, otherwise install the parsed list (or the
default list when the parse is empty), reset the result display and reset the
rotation to 0. -/
def updateClick (input : String) (s : WheelState) : WheelState :=
  let raw := jsTrim input
  if raw = "" then s
  else
    let arr := parseNames raw
    { s with
        names := if arr.isEmpty then defaultNames else arr
      , resultText := "Winner: —"
      , rotation := 0 }

/-- Whole-page state: the globals and UI state, plus the session held by the
animation loop currently in flight (none when no loop is scheduled). -/
structure SysState where
  wheel : WheelState
  session : Option SpinSession
deriving DecidableEq

/-- System state at page load: no animation loop is scheduled. -/
def initialSys : SysState := ⟨initialWheel, none⟩

/-- Effect of an update-button click on the whole page: the handler touches
only the globals; it never touches the animation loop. -/
def sysUpdate (input : String) (s : SysState) : SysState :=
  ⟨updateClick input s.wheel, s.session⟩

/-- Effect of an accepted spin request on the whole page: the globals are
updated and the animate closure holding the new session is scheduled. -/
def sysSpin (i r : ℕ) (s : SysState) : SysState :=
  ⟨(spin s.wheel i r).1, (spin s.wheel i r).2⟩

/-- Effect of an animation frame with t < 1: write the rotation and keep the
loop scheduled (script.js line 170). -/
def sysFrame (sess : SpinSession) (tq : ℚ) (s : SysState) : SysState :=
  ⟨animateFrame sess tq s.wheel, s.session⟩

/-- Effect of the final animation frame, t >= 1: write the rotation, then run
finishSpin with the targetIndex captured by the closure (script.js line 171);
the loop is not rescheduled. -/
def sysLastFrame (sess : SpinSession) (tq : ℚ) (s : SysState) : SysState :=
  ⟨finishSpin sess.targetIndex (animateFrame sess tq s.wheel), none⟩

/-- The events the page reacts to.  An update click can only fire while the
update button is enabled (a disabled button emits no click events); the spin
action has no such gate because the Space key handler (script.js lines
235-240) calls spin unconditionally.  An accepted spin draws
targetIndex = Math.floor(Math.random() * segCount), which lies in
[0, segCount), and fullRot = 4 + Math.floor(Math.random() * 3), which lies in
[4, 6].  Frames of the scheduled loop carry tq = elapsed / duration, which is
nonnegative; the loop reschedules itself exactly while min 1 tq < 1. -/
inductive Step : SysState → SysState → Prop where
  | update (input : String) (s : SysState)
      (henabled : s.wheel.updateBtnDisabled = false) :
      Step s (sysUpdate input s)
  | spinAccepted (i r : ℕ) (s : SysState)
      (hflag : s.wheel.spinning = false)
      (hi : i < s.wheel.names.length)
      (hr4 : 4 ≤ r) (hr6 : r ≤ 6) :
      Step s (sysSpin i r s)
  | frame (sess : SpinSession) (tq : ℚ) (s : SysState)
      (hsess : s.session = some sess)
      (h0 : 0 ≤ tq) (h1 : tq < 1) :
      Step s (sysFrame sess tq s)
  | lastFrame (sess : SpinSession) (tq : ℚ) (s : SysState)
      (hsess : s.session = some sess)
      (h1 : 1 ≤ tq) :
      Step s (sysLastFrame sess tq s)

/-- States the page can reach from load by any sequence of events. -/
inductive Reachable : SysState → Prop where
  | init : Reachable initialSys
  | step {s t : SysState} : Reachable s → Step s t → Reachable t

/-! Concrete states used in counterexamples and witnesses. -/

/-- A two-name wheel at rest, as in the end-to-end scenario of the spec. -/
def twoNamesWheel : WheelState :=
  { names := ["A", "B"]
  , rotation := 0
  , spinning := false
  , spinBtnDisabled := false
  , updateBtnDisabled := false
  , resultText := "Winner: —" }

/-- A wheel in the middle of a spin: flag set, buttons disabled. -/
def spinningWheel : WheelState :=
  { names := ["A", "B"]
  , rotation := 5
  , spinning := true
  , spinBtnDisabled := true
  , updateBtnDisabled := true
  , resultText := "Spinning..." }

/-- A one-name wheel whose list differs from the default list. -/
def oneNameWheel : WheelState :=
  { names := ["X"]
  , rotation := 7
  , spinning := false
  , spinBtnDisabled := false
  , updateBtnDisabled := false
  , resultText := "Winner: X" }

/-! Helper lemmas. -/

lemma floor_eq_of (q : ℚ) (n : ℤ) (h1 : (n : ℚ) ≤ q) (h2 : q < n + 1) : ⌊q⌋ = n :=
  Int.floor_eq_iff.mpr ⟨h1, h2⟩

lemma jsMod_of_nonneg (a b : ℚ) (ha : 0 ≤ a) (hb : 0 < b) :
    jsMod a b = a - b * ⌊a / b⌋ := by
  unfold jsMod
  rw [if_pos (div_nonneg ha hb.le)]

lemma jsMod_nonneg (a b : ℚ) (ha : 0 ≤ a) (hb : 0 < b) : 0 ≤ jsMod a b := by
  rw [jsMod_of_nonneg a b ha hb]
  have h : (⌊a / b⌋ : ℚ) * b ≤ a / b * b :=
    mul_le_mul_of_nonneg_right (Int.floor_le (a / b)) hb.le
  rw [div_mul_cancel₀ a hb.ne'] at h
  nlinarith

lemma jsMod_lt (a b : ℚ) (ha : 0 ≤ a) (hb : 0 < b) : jsMod a b < b := by
  rw [jsMod_of_nonneg a b ha hb]
  have h : a / b * b < ((⌊a / b⌋ : ℚ) + 1) * b :=
    mul_lt_mul_of_pos_right (Int.lt_floor_add_one (a / b)) hb
  rw [div_mul_cancel₀ a hb.ne'] at h
  nlinarith

lemma jsMod_le_self (a b : ℚ) (ha : 0 ≤ a) (hb : 0 < b) : jsMod a b ≤ a := by
  rw [jsMod_of_nonneg a b ha hb]
  have h : (0 : ℤ) ≤ ⌊a / b⌋ := Int.floor_nonneg.mpr (div_nonneg ha hb.le)
  have h2 : (0 : ℚ) ≤ b * ⌊a / b⌋ := mul_nonneg hb.le (by exact_mod_cast h)
  linarith

lemma jsMod_eval (a b : ℚ) (n : ℤ) (ha : 0 ≤ a) (hb : 0 < b)
    (h1 : (n : ℚ) * b ≤ a) (h2 : a < ((n : ℚ) + 1) * b) : jsMod a b = a - b * n := by
  rw [jsMod_of_nonneg a b ha hb,
    floor_eq_of (a / b) n ((le_div_iff₀ hb).mpr h1) ((div_lt_iff₀ hb).mpr h2)]

lemma jsMod_zero (b : ℚ) : jsMod 0 b = 0 := by
  unfold jsMod
  simp

lemma ease_mono {t u : ℚ} (htu : t ≤ u) : easeOutCubic t ≤ easeOutCubic u := by
  unfold easeOutCubic
  nlinarith [sq_nonneg (1 - t), sq_nonneg (1 - u), sq_nonneg ((1 - t) + (1 - u))]

lemma ease_nonneg {t : ℚ} (h0 : 0 ≤ t) (h1 : t ≤ 1) : 0 ≤ easeOutCubic t := by
  unfold easeOutCubic
  nlinarith [sq_nonneg (1 - t)]

lemma ease_le_one {t : ℚ} (h : t ≤ 1) : easeOutCubic t ≤ 1 := by
  unfold easeOutCubic
  nlinarith [pow_nonneg (by linarith : (0 : ℚ) ≤ 1 - t) 3]

lemma spin_fst_names (s : WheelState) (i r : ℕ) : (spin s i r).1.names = s.names := by
  unfold spin
  split <;> rfl

lemma spin_fst_rotation (s : WheelState) (i r : ℕ) : (spin s i r).1.rotation = s.rotation := by
  unfold spin
  split <;> rfl

lemma spin_accepted_eq (s : WheelState) (i r : ℕ)
    (hflag : s.spinning = false) (hlen : s.names.length ≠ 0) :
    spin s i r =
      ({ s with
          spinning := true
        , spinBtnDisabled := true
        , updateBtnDisabled := true
        , resultText := "Spinning..." },
       some
        { targetIndex := i
        , fullRot := r
        , startRotation := jsMod s.rotation 360
        , endRotation := s.rotation + finalRotation s.names.length i r }) := by
  unfold spin
  rw [if_neg]
  simp [hflag, hlen]

/-! Claim theorems. -/

/-- C6: if the spinning flag is set, or the names list is empty, a call to
spin is a no-op: the state is returned unchanged and no session is created. -/
theorem spin_request_rejected_noop (s : WheelState) (i r : ℕ)
    (h : s.spinning = true ∨ s.names = []) :
    spin s i r = (s, none) := by
  unfold spin
  rw [if_pos]
  rcases h with h | h
  · simp [h]
  · simp [h]

/-- Witness for C6 at a concrete spinning state. -/
theorem spin_request_rejected_noop_witness :
    spinningWheel.spinning = true ∧ spin spinningWheel 0 4 = (spinningWheel, none) :=
  ⟨rfl, spin_request_rejected_noop spinningWheel 0 4 (Or.inl rfl)⟩

/-- C7: the easing function is t maps to 1 - (1 - t)^3, sends 0 to 0 and 1 to
1, is monotonically non-decreasing on [0, 1], and maps [0, 1] into [0, 1]. -/
theorem easeOutCubic_spec (t u : ℚ) (ht : 0 ≤ t) (htu : t ≤ u) (hu : u ≤ 1) :
    easeOutCubic t = 1 - (1 - t) ^ 3 ∧
    easeOutCubic 0 = 0 ∧
    easeOutCubic 1 = 1 ∧
    easeOutCubic t ≤ easeOutCubic u ∧
    0 ≤ easeOutCubic t ∧ easeOutCubic t ≤ 1 ∧
    0 ≤ easeOutCubic u ∧ easeOutCubic u ≤ 1 :=
  ⟨rfl, by norm_num [easeOutCubic], by norm_num [easeOutCubic],
   ease_mono htu,
   ease_nonneg ht (htu.trans hu), ease_le_one (htu.trans hu),
   ease_nonneg (ht.trans htu) hu, ease_le_one hu⟩

/-- Witness for C7 at t = 0, u = 1. -/
theorem easeOutCubic_spec_witness :
    easeOutCubic 0 = 0 ∧ easeOutCubic 1 = 1 ∧ easeOutCubic 0 ≤ easeOutCubic 1 := by
  have h := easeOutCubic_spec 0 1 le_rfl zero_le_one le_rfl
  exact ⟨h.2.1, h.2.2.1, h.2.2.2.1⟩

/-- C10: finishSpin never reads its winIndex argument, so the computed index
and the displayed winner are identical for any two winIndex values. -/
theorem finishSpin_winner_independent_of_winIndex (w1 w2 : ℕ) (s : WheelState) :
    finishSpin w1 s = finishSpin w2 s := rfl

/-- C4, counterexample: invoked directly while the spinning flag is true, the
update handler is NOT a no-op: on the state spinningWheel and the input
"X, Y" it replaces the names, resets the rotation and rewrites the result
display, so the claim that names, rotation and display are left unchanged
fails at this input. -/
theorem update_not_rejected_while_spinning :
    spinningWheel.spinning = true ∧
    spinningWheel.names = ["A", "B"] ∧
    spinningWheel.rotation = 5 ∧
    spinningWheel.resultText = "Spinning..." ∧
    (updateClick "X, Y" spinningWheel).names = ["X", "Y"] ∧
    (updateClick "X, Y" spinningWheel).rotation = 0 ∧
    (updateClick "X, Y" spinningWheel).resultText = "Winner: —" := by
  refine ⟨rfl, rfl, rfl, rfl, ?_, ?_, ?_⟩ <;> decide

/-- C4, amended: the update handler never consults the spinning flag.  Its
only in-handler rejection is a blank input; invoked directly during a spin
with an input whose trim is nonempty it performs the full update (parsed
names or the default list, rotation reset to 0, result display reset), and
it does not even clear the flag.  Protection during a spin comes only from
the update button being disabled. -/
theorem update_handler_independent_of_spinning (s : WheelState) (input : String)
    (hspin : s.spinning = true) (hraw : jsTrim input ≠ "") :
    (updateClick input s).names =
      (if (parseNames (jsTrim input)).isEmpty then defaultNames
       else parseNames (jsTrim input)) ∧
    (updateClick input s).rotation = 0 ∧
    (updateClick input s).resultText = "Winner: —" ∧
    (updateClick input s).spinning = true := by
  simp only [updateClick]
  rw [if_neg hraw]
  exact ⟨rfl, rfl, rfl, hspin⟩

/-- Witness for C4 (amended) at the spinning state and the input "X, Y". -/
theorem update_handler_independent_of_spinning_witness :
    spinningWheel.spinning = true ∧
    (updateClick "X, Y" spinningWheel).rotation = 0 ∧
    (updateClick "X, Y" spinningWheel).spinning = true := by
  have h := update_handler_independent_of_spinning spinningWheel "X, Y" rfl (by decide)
  exact ⟨rfl, h.2.1, h.2.2.2⟩

/-- C5, counterexample: a whitespace-only update does NOT install the default
list; the handler returns early and the previous names survive.  On the state
oneNameWheel (names ["X"]) and the blank input the names stay ["X"], which is
not the default list. -/
theorem blank_update_is_noop_not_default :
    (updateClick "   " oneNameWheel).names = ["X"] ∧
    updateClick "   " oneNameWheel = oneNameWheel ∧
    ["X"] ≠ defaultNames := by
  refine ⟨?_, ?_, ?_⟩ <;> decide

/-- C5, amended: an empty or whitespace-only raw input is rejected outright
(the handler returns before touching any state); only a nonempty raw input
whose parse (split on commas, trim, drop empties) yields no entries, such as
a string of commas, installs the exact default list. -/
theorem update_fallback_spec (s : WheelState) (input : String) :
    (jsTrim input = "" → updateClick input s = s) ∧
    (jsTrim input ≠ "" → parseNames (jsTrim input) = [] →
      (updateClick input s).names = defaultNames) := by
  constructor
  · intro h
    simp only [updateClick]
    rw [if_pos h]
  · intro h hp
    simp only [updateClick]
    rw [if_neg h]
    simp [hp]

/-- Witness for C5 (amended): a blank input is a no-op on oneNameWheel, and
the input ",," (nonempty, but parsing to no entries) installs the default
list. -/
theorem update_fallback_spec_witness :
    updateClick " " oneNameWheel = oneNameWheel ∧
    (updateClick ",," oneNameWheel).names = defaultNames :=
  ⟨(update_fallback_spec oneNameWheel " ").1 (by decide),
   (update_fallback_spec oneNameWheel ",,").2 (by decide) (by decide)⟩

/-! Concrete evaluation of the spin pipeline on the two-name wheel. -/

lemma jsMod_1620_360 : jsMod (1620 : ℚ) 360 = 180 := by
  rw [jsMod_eval 1620 360 4 (by norm_num) (by norm_num) (by norm_num) (by norm_num)]
  norm_num

lemma resolveIndex_two_at_1620 : resolveIndex 2 1620 = 0 := by
  unfold resolveIndex
  rw [jsMod_1620_360, show (360 + 270 - (180 : ℚ)) = 450 by norm_num,
    jsMod_eval 450 360 1 (by norm_num) (by norm_num) (by norm_num) (by norm_num)]
  exact floor_eq_of _ 0 (by norm_num) (by norm_num)

lemma spin_two_session :
    (spin twoNamesWheel 1 4).2 =
      some { targetIndex := 1, fullRot := 4, startRotation := 0, endRotation := 1620 } := by
  rw [spin_accepted_eq twoNamesWheel 1 4 rfl (by decide)]
  have h1 : jsMod twoNamesWheel.rotation 360 = 0 := by
    rw [show twoNamesWheel.rotation = 0 from rfl, jsMod_zero]
  have h2 : twoNamesWheel.rotation + finalRotation twoNamesWheel.names.length 1 4 = 1620 := by
    rw [show twoNamesWheel.rotation = 0 from rfl,
      show twoNamesWheel.names.length = 2 from rfl]
    norm_num [finalRotation, targetMidAngle, anglePer]
  rw [h1, h2]

lemma finish_two_at_1620 :
    (finishSpin 1 { twoNamesWheel with rotation := 1620 }).resultText = "Winner: A" := by
  simp only [finishSpin]
  rw [show twoNamesWheel.names = ["A", "B"] from rfl,
    show (["A", "B"] : List String).length = 2 from rfl, resolveIndex_two_at_1620]
  decide

/-- C1, failing input for the round-trip property: for N = 2 names and
targetIndex = 1 (with fullRot = 4 and rotation 0 at spin start), spin
constructs endRotation = 1620, but the winner-resolution formula of
finishSpin applied to that rotation yields index 0 and displays names[0]
("A"), not the targeted names[1] ("B").  The code contradicts its own
comments (targetIndex is labelled the random winner and targetMidAngle is
said to align the chosen slice with the pointer at 12 o'clock): rotating the
wheel BY the mid-angle of slice i moves that slice away from the pointer, so
the slice that actually stops under the pointer is slice N - 1 - i. -/
theorem roundtrip_violated_for_two_names :
    (spin twoNamesWheel 1 4).2 =
      some { targetIndex := 1, fullRot := 4, startRotation := 0, endRotation := 1620 } ∧
    resolveIndex 2 1620 = 0 ∧
    resolveIndex 2 1620 ≠ 1 ∧
    (finishSpin 1 { twoNamesWheel with rotation := 1620 }).resultText = "Winner: A" ∧
    twoNamesWheel.names[1]? = some "B" := by
  refine ⟨spin_two_session, resolveIndex_two_at_1620, ?_, finish_two_at_1620, by decide⟩
  rw [resolveIndex_two_at_1620]
  decide

/-- C2, counterexample: on the stated scenario the winner-resolution formula
applied to endRotation mod 360 = 180 does not return index 1 and the display
is not "Winner: B". -/
theorem two_name_scenario_not_index_one :
    resolveIndex 2 1620 ≠ 1 ∧
    (finishSpin 1 { twoNamesWheel with rotation := 1620 }).resultText ≠ "Winner: B" := by
  constructor
  · rw [resolveIndex_two_at_1620]
    decide
  · rw [finish_two_at_1620]
    decide

/-- C2, amended: for the list ["A", "B"] with targetIndex = 1 and
fullRot = 4 from rotation 0, spin produces anglePerSlice = 180,
targetMidAngle = 180, finalRotationDelta = 1620 and endRotation = 1620, and
the winner-resolution formula of finishSpin applied to
endRotation mod 360 = 180 returns index 0, i.e. the name "A". -/
theorem two_name_scenario_resolves_index_zero :
    anglePer 2 = 180 ∧
    targetMidAngle 2 1 = 180 ∧
    finalRotation 2 1 4 = 1620 ∧
    (spin twoNamesWheel 1 4).2 =
      some { targetIndex := 1, fullRot := 4, startRotation := 0, endRotation := 1620 } ∧
    jsMod 1620 360 = 180 ∧
    resolveIndex 2 1620 = 0 ∧
    (finishSpin 1 { twoNamesWheel with rotation := 1620 }).resultText = "Winner: A" :=
  ⟨by norm_num [anglePer],
   by norm_num [targetMidAngle, anglePer],
   by norm_num [finalRotation, targetMidAngle, anglePer],
   spin_two_session, jsMod_1620_360, resolveIndex_two_at_1620, finish_two_at_1620⟩

/-- C9: with exact arithmetic, a nonnegative rotation, and a non-empty names
list whose entries are non-empty strings (which is what every reachable list
provides), the index finishSpin computes lies in [0, names.length), so the
em-dash fallback of names[index] is never taken and the displayed winner is
an element of the list. -/
theorem finishSpin_index_in_range (s : WheelState) (k : ℕ)
    (hrot : 0 ≤ s.rotation) (hne : s.names ≠ []) (hblank : "" ∉ s.names) :
    0 ≤ resolveIndex s.names.length s.rotation ∧
    resolveIndex s.names.length s.rotation < (s.names.length : ℤ) ∧
    winnerName s.names (resolveIndex s.names.length s.rotation) ∈ s.names ∧
    (finishSpin k s).resultText =
      "Winner: " ++ winnerName s.names (resolveIndex s.names.length s.rotation) := by
  have hN : 0 < s.names.length := List.length_pos.mpr hne
  have hNq : (0 : ℚ) < (s.names.length : ℚ) := by exact_mod_cast hN
  have h360 : (0 : ℚ) < 360 := by norm_num
  have hnorm0 : 0 ≤ jsMod s.rotation 360 := jsMod_nonneg _ _ hrot h360
  have hnorm1 : jsMod s.rotation 360 < 360 := jsMod_lt _ _ hrot h360
  have hm0 : (0 : ℚ) ≤ 360 + 270 - jsMod s.rotation 360 := by linarith
  have hm2a : 0 ≤ jsMod (360 + 270 - jsMod s.rotation 360) 360 :=
    jsMod_nonneg _ _ hm0 h360
  have hm2b : jsMod (360 + 270 - jsMod s.rotation 360) 360 < 360 :=
    jsMod_lt _ _ hm0 h360
  have hden : (0 : ℚ) < 360 / (s.names.length : ℚ) := div_pos h360 hNq
  have hmul : (s.names.length : ℚ) * (360 / (s.names.length : ℚ)) = 360 := by
    field_simp
  have hidx0 : 0 ≤ resolveIndex s.names.length s.rotation := by
    unfold resolveIndex
    exact Int.floor_nonneg.mpr (div_nonneg hm2a hden.le)
  have hidxN : resolveIndex s.names.length s.rotation < (s.names.length : ℤ) := by
    unfold resolveIndex
    apply Int.floor_lt.mpr
    push_cast
    rw [div_lt_iff₀ hden, hmul]
    exact hm2b
  refine ⟨hidx0, hidxN, ?_, rfl⟩
  have hcond : 0 ≤ resolveIndex s.names.length s.rotation ∧
      (resolveIndex s.names.length s.rotation).toNat < s.names.length := by
    refine ⟨hidx0, ?_⟩
    omega
  unfold winnerName
  rw [dif_pos hcond]
  have hget : s.names.get ⟨(resolveIndex s.names.length s.rotation).toNat, hcond.2⟩ ∈ s.names :=
    List.get_mem _ _ hcond.2
  rw [if_neg (fun he : s.names.get _ = "" => hblank (he ▸ hget))]
  exact hget

/-- The two-name wheel after the spin of the end-to-end scenario. -/
def spunWheel : WheelState := { twoNamesWheel with rotation := 1620 }

lemma spunWheel_rotation_nonneg : (0 : ℚ) ≤ spunWheel.rotation := by
  rw [show spunWheel.rotation = (1620 : ℚ) from rfl]
  norm_num

/-- Witness for C9 on the two-name wheel stopped at rotation 1620. -/
theorem finishSpin_index_in_range_witness :
    0 ≤ resolveIndex spunWheel.names.length spunWheel.rotation ∧
    resolveIndex spunWheel.names.length spunWheel.rotation < (spunWheel.names.length : ℤ) ∧
    winnerName spunWheel.names (resolveIndex spunWheel.names.length spunWheel.rotation) ∈
      spunWheel.names :=
  have h := finishSpin_index_in_range spunWheel 0 spunWheel_rotation_nonneg
    (by decide) (by decide)
  ⟨h.1, h.2.1, h.2.2.1⟩

/-- C8: in every reachable page state the names list is non-empty: it starts
as the eight default names and every completed update installs either a
non-empty parsed list or the default list.  Consequently, whenever a spin
request is rejected in a reachable state, the reason is the spinning flag,
never the empty-list half of the guard. -/
theorem reachable_names_nonempty (sys : SysState) (h : Reachable sys) :
    sys.wheel.names ≠ [] ∧
    ∀ i r : ℕ, (spin sys.wheel i r).2 = none → sys.wheel.spinning = true := by
  have key : sys.wheel.names ≠ [] := by
    induction h with
    | init => decide
    | step hr hst ih =>
        cases hst with
        | update input s henabled =>
            by_cases hraw : jsTrim input = ""
            · simpa [sysUpdate, updateClick, hraw] using ih
            · simp only [sysUpdate, updateClick, if_neg hraw]
              by_cases harr : (parseNames (jsTrim input)).isEmpty
              · simp [harr]
                decide
              · simp [harr]
                intro hnil
                rw [hnil] at harr
                exact harr rfl
        | spinAccepted i r s hflag hi hr4 hr6 =>
            simpa [sysSpin, spin_fst_names] using ih
        | frame sess tq s hsess h0 h1 =>
            simpa [sysFrame, animateFrame] using ih
        | lastFrame sess tq s hsess h1 =>
            simpa [sysLastFrame, finishSpin, animateFrame] using ih
  refine ⟨key, fun i r hnone => ?_⟩
  by_contra hflag
  rw [Bool.not_eq_true] at hflag
  rw [spin_accepted_eq _ i r hflag (by simpa [List.length_eq_zero] using key)] at hnone
  exact Option.some_ne_none _ hnone

/-- Witness for C8 at the initial page state. -/
theorem reachable_names_nonempty_witness :
    Reachable initialSys ∧ initialSys.wheel.names ≠ [] :=
  ⟨Reachable.init, (reachable_names_nonempty initialSys Reachable.init).1⟩

/-- C3, amended: within one spin the rotation scalar is non-decreasing: for
two frames of the same accepted session at clamped times t1 <= t2 the written
rotation can only grow (given a nonnegative rotation at spin start and the
fullRot >= 4 the code draws).  Monotonicity across spins fails: see the
counterexample below. -/
theorem rotation_nondecreasing_within_spin (s : WheelState) (i r : ℕ)
    (sess : SpinSession) (t1 t2 : ℚ) (w : WheelState)
    (hrot : 0 ≤ s.rotation) (hr : 4 ≤ r)
    (hsess : (spin s i r).2 = some sess)
    (h0 : 0 ≤ t1) (h12 : t1 ≤ t2) :
    (animateFrame sess t1 w).rotation ≤ (animateFrame sess t2 w).rotation := by
  unfold spin at hsess
  by_cases hg : (s.spinning || s.names.length == 0) = true
  · rw [if_pos hg] at hsess
    exact absurd hsess (by simp)
  · rw [if_neg hg] at hsess
    have hsess' : sess =
        { targetIndex := i, fullRot := r, startRotation := jsMod s.rotation 360,
          endRotation := s.rotation + finalRotation s.names.length i r } :=
      (Option.some.inj hsess).symm
    have hstart : sess.startRotation ≤ s.rotation := by
      rw [hsess']
      exact jsMod_le_self _ _ hrot (by norm_num)
    have hend : s.rotation ≤ sess.endRotation := by
      rw [hsess']
      have hfin : (0 : ℚ) ≤ finalRotation s.names.length i r := by
        unfold finalRotation targetMidAngle anglePer
        have h1 : (4 : ℚ) ≤ (r : ℚ) := by exact_mod_cast hr
        have h2 : (0 : ℚ) ≤ (i : ℚ) * (360 / (s.names.length : ℚ)) :=
          mul_nonneg (Nat.cast_nonneg i)
            (div_nonneg (by norm_num) (Nat.cast_nonneg _))
        have h3 : (0 : ℚ) ≤ (360 / (s.names.length : ℚ)) / 2 :=
          div_nonneg (div_nonneg (by norm_num) (Nat.cast_nonneg _)) (by norm_num)
        linarith
      simp only [WheelState.rotation]
      linarith
    have hd : 0 ≤ sess.endRotation - sess.startRotation := by linarith
    have he : easeOutCubic (min 1 t1) ≤ easeOutCubic (min 1 t2) :=
      ease_mono (min_le_min le_rfl h12)
    simp only [animateFrame, rotationAt]
    exact add_le_add_left (mul_le_mul_of_nonneg_left he hd) _

/-- Session the animate closure holds during the first spin of the
end-to-end scenario. -/
def witnessSession : SpinSession :=
  { targetIndex := 1
  , fullRot := 4
  , startRotation := jsMod twoNamesWheel.rotation 360
  , endRotation := twoNamesWheel.rotation + finalRotation twoNamesWheel.names.length 1 4 }

/-- Witness for C3 (amended) on the two-name wheel, frames at t = 0 and
t = 1. -/
theorem rotation_nondecreasing_within_spin_witness :
    (animateFrame witnessSession 0 twoNamesWheel).rotation ≤
    (animateFrame witnessSession 1 twoNamesWheel).rotation :=
  rotation_nondecreasing_within_spin twoNamesWheel 1 4 witnessSession 0 1 twoNamesWheel
    le_rfl le_rfl rfl le_rfl zero_le_one

/-! A reachable two-spin trace on the default names.  The first spin (target
index 5, four full turns) stops at rotation 1597.5; the second spin is
accepted and its very first frame, at clamped time 0, writes
startRotation = 1597.5 mod 360 = 157.5 back into the rotation global. -/

/-- Session of the first spin of the trace. -/
def sessA : SpinSession :=
  { targetIndex := 5
  , fullRot := 4
  , startRotation := jsMod initialWheel.rotation 360
  , endRotation := initialWheel.rotation + finalRotation initialWheel.names.length 5 4 }

/-- Page state right after the first spin request is accepted. -/
def midSys : SysState := sysSpin 5 4 initialSys

/-- Page state after the first spin finished. -/
def doneSys : SysState := sysLastFrame sessA 1 midSys

/-- Page state right after the second spin request is accepted. -/
def secondSys : SysState := sysSpin 5 4 doneSys

/-- Session of the second spin of the trace. -/
def sessB : SpinSession :=
  { targetIndex := 5
  , fullRot := 4
  , startRotation := jsMod doneSys.wheel.rotation 360
  , endRotation := doneSys.wheel.rotation + finalRotation doneSys.wheel.names.length 5 4 }

/-- Page state after the first frame (clamped time 0) of the second spin. -/
def droppedSys : SysState := sysFrame sessB 0 secondSys

lemma sessA_start : sessA.startRotation = 0 := by
  rw [show sessA.startRotation = jsMod initialWheel.rotation 360 from rfl,
    show initialWheel.rotation = 0 from rfl, jsMod_zero]

lemma sessA_end : sessA.endRotation = 3195 / 2 := by
  rw [show sessA.endRotation
      = initialWheel.rotation + finalRotation initialWheel.names.length 5 4 from rfl,
    show initialWheel.rotation = (0 : ℚ) from rfl,
    show initialWheel.names.length = 8 from rfl]
  norm_num [finalRotation, targetMidAngle, anglePer]

lemma doneSys_rotation : doneSys.wheel.rotation = 3195 / 2 := by
  rw [show doneSys.wheel.rotation = rotationAt sessA (easeOutCubic (min 1 1)) from rfl,
    min_self, show easeOutCubic 1 = 1 by norm_num [easeOutCubic],
    show rotationAt sessA 1
      = sessA.startRotation + (sessA.endRotation - sessA.startRotation) * 1 from rfl,
    sessA_start, sessA_end]
  norm_num

lemma secondSys_rotation : secondSys.wheel.rotation = 3195 / 2 := by
  rw [show secondSys.wheel.rotation = (spin doneSys.wheel 5 4).1.rotation from rfl,
    spin_fst_rotation, doneSys_rotation]

lemma sessB_start : sessB.startRotation = 315 / 2 := by
  rw [show sessB.startRotation = jsMod doneSys.wheel.rotation 360 from rfl, doneSys_rotation,
    jsMod_eval (3195 / 2) 360 4 (by norm_num) (by norm_num) (by norm_num) (by norm_num)]
  norm_num

lemma droppedSys_rotation : droppedSys.wheel.rotation = 315 / 2 := by
  rw [show droppedSys.wheel.rotation = rotationAt sessB (easeOutCubic (min 1 0)) from rfl,
    show min (1 : ℚ) 0 = 0 from min_eq_right zero_le_one,
    show easeOutCubic 0 = 0 by norm_num [easeOutCubic],
    show rotationAt sessB 0
      = sessB.startRotation + (sessB.endRotation - sessB.startRotation) * 0 from rfl,
    mul_zero, add_zero, sessB_start]

lemma traceStep1 : Step initialSys midSys :=
  Step.spinAccepted 5 4 initialSys rfl (by decide) (by decide) (by decide)

lemma traceStep2 : Step midSys doneSys :=
  Step.lastFrame sessA 1 midSys rfl le_rfl

lemma traceStep3 : Step doneSys secondSys :=
  Step.spinAccepted 5 4 doneSys rfl (by decide) (by decide) (by decide)

lemma traceStep4 : Step secondSys droppedSys :=
  Step.frame sessB 0 secondSys rfl le_rfl (by norm_num)

/-- C3, counterexample: the rotation scalar does decrease at a step of a
reachable execution.  After the first spin the rotation is 3195/2 = 1597.5;
the second spin is accepted, and its first animation frame (clamped time 0)
writes 315/2 = 157.5, a value smaller than before — the frame formula
re-bases every spin on startRotation = rotation mod 360 even though no
name-list update happened. -/
theorem rotation_decreases_at_second_spin_start :
    Reachable secondSys ∧
    Step secondSys droppedSys ∧
    secondSys.wheel.rotation = 3195 / 2 ∧
    droppedSys.wheel.rotation = 315 / 2 ∧
    droppedSys.wheel.rotation < secondSys.wheel.rotation := by
  refine ⟨?_, traceStep4, secondSys_rotation, droppedSys_rotation, ?_⟩
  · exact Reachable.step
      (Reachable.step (Reachable.step Reachable.init traceStep1) traceStep2) traceStep3
  · rw [secondSys_rotation, droppedSys_rotation]
    norm_num

end Wheel
